import Mathlib

/-!
# Verification of the OpenClaw `myclient` iOS audio streaming client

Shallow embedding of the real-time audio streaming session code:

* `AudioPlayback`   — models `AudioPlayback` (AVAudioEngine + AVAudioPlayerNode
  wrapper): `start` / `stop` / `enqueuePcm`.
* `AudioRecorder`   — models `AudioRecorder` (AVAudioEngine input tap plus
  `AVAudioConverter`): `start` / `stop` / `handleBuffer`.
* `ClientState`     — models the observable state of `AudioStreamClient`
  (`@Published` fields, the websocket task, the owned recorder/playback
  objects) together with the traces of observable effects: the messages
  handed to the websocket task and the values forwarded to
  `UnityBridge.shared.updateViseme`.
* `ClientState.connect`, `.disconnect`, `.startRecording`, `.stopRecording`,
  `.sendBinary`, `.captureFrame`, `.handleJson`, `.processInbound` — the
  operations, translated statement by statement from the Swift source.

Environment-determined outcomes (does `AVAudioEngine.start()` throw, does a
completion handler of a websocket send report an error, does the native
converter reject a buffer, what inbound frames the transport delivers) are
passed as explicit parameters; the branching of the code on them is translated
faithfully.
-/

namespace OpenClaw

/-- A binary buffer as a list of bytes (each `< 256` in intent; the model
does not need the bound). -/
abbrev ByteData := List Nat

/-- Reassemble two little-endian bytes into a signed 16-bit sample value,
as done by binding the raw buffer memory to `Int16` in `enqueuePcm`. -/
def toInt16 (lo hi : Nat) : Int :=
  let u : Nat := (lo % 256) + 256 * (hi % 256)
  if u < 32768 then (u : Int) else (u : Int) - 65536

/-- Interpret a byte buffer as PCM16 little-endian samples.
`enqueuePcm` computes `frameCount = data.count / MemoryLayout<Int16>.size`
and copies exactly `frameCount` samples, so a trailing odd byte is dropped. -/
def bytesToSamples : ByteData → List Int
  | b0 :: b1 :: rest => toInt16 b0 b1 :: bytesToSamples rest
  | _ => []

/-- Model of the `AudioPlayback` object: an `AVAudioEngine` with an attached
`AVAudioPlayerNode`.  `queued` are buffers given to `scheduleBuffer` while
the player was not playing; `rendered` are buffers that have been (or are
being) handed to the output device.  Per the documented AVFoundation
behaviour, `AVAudioPlayerNode.stop()` discards the queued buffers and stops
playback, `play()` starts rendering the queued buffers in order, and
`scheduleBuffer` while playing renders the buffer after the already
scheduled ones. -/
structure AudioPlayback where
  engineRunning : Bool
  playing : Bool
  started : Bool
  queued : List (List Int)
  rendered : List (List Int)
deriving Repr, DecidableEq

namespace AudioPlayback

/-- State of the freshly initialised `AudioPlayback()` (the initialiser only
attaches and connects the node; nothing runs yet). -/
def init : AudioPlayback :=
  { engineRunning := false, playing := false, started := false,
    queued := [], rendered := [] }

/-- Swift `AVAudioPlayerNode.play()`: begin rendering the scheduled buffers. -/
def play (p : AudioPlayback) : AudioPlayback :=
  { p with playing := true, rendered := p.rendered ++ p.queued, queued := [] }

/-- Swift `AVAudioPlayerNode.scheduleBuffer(buffer)`: while playing the buffer is
rendered after the current queue (which is empty in this model whenever
`playing = true`); otherwise it waits on the queue. -/
def scheduleBuffer (p : AudioPlayback) (b : List Int) : AudioPlayback :=
  if p.playing then { p with rendered := p.rendered ++ [b] }
  else { p with queued := p.queued ++ [b] }

/-- Swift `AudioPlayback.start() throws`.  `engineStartOk` tells whether
`engine.start()` succeeds; the `Bool` in the result is `false` exactly when
the Swift method throws.  Faithful to the guards: an already `started` or
already running engine returns early without touching the player. -/
def start (engineStartOk : Bool) (p : AudioPlayback) : AudioPlayback × Bool :=
  if p.started then (p, true)
  else if p.engineRunning then (p, true)
  else if engineStartOk then
    ({ p.play with engineRunning := true, started := true }, true)
  else (p, false)

/-- Swift `AudioPlayback.stop()`: `player.stop()` (discard queued buffers, stop
playing), `engine.stop()`, clear the `started` flag. -/
def stop (p : AudioPlayback) : AudioPlayback :=
  { p with
    playing := false, queued := [], engineRunning := false,
    started := false }

/-- Swift `AudioPlayback.enqueuePcm(data)`: compute `frameCount = count / 2`,
copy that many little-endian `Int16` samples, schedule the buffer on the
player node.  No `started` check appears in the source.  Total: every
failure path in the source is an early `return`, never a crash. -/
def enqueuePcm (p : AudioPlayback) (data : ByteData) : AudioPlayback :=
  p.scheduleBuffer (bytesToSamples data)

/-- Total number of PCM16 samples that have been scheduled on the player
node (still queued or already rendered). -/
def totalSamples (p : AudioPlayback) : Nat :=
  ((p.queued ++ p.rendered).map List.length).sum

end AudioPlayback

/-- Outcome of one `AVAudioConverter.convert` call on a capture buffer:
either the converted canonical PCM16 bytes, or a rejection (status
`.error` / a populated `NSError`). -/
inductive ConvResult
  | ok (bytes : ByteData)
  | fail
deriving Repr, DecidableEq

/-- What `AudioRecorder.handleBuffer` can pass upward.  The only callback the
recorder owns is `onPcmData: (Data) -> Void`, so the source can only ever
emit `pcm`; `errorReport` exists so that the spec phrase — reported upward
as a `FormatError` — can be stated about the output. -/
inductive CaptureOutput
  | pcm (bytes : ByteData)
  | errorReport (message : String)
deriving Repr, DecidableEq

/-- Model of the `AudioRecorder` object.  `tapInstalled` — the input-bus tap
is installed; `converterSet` — the optional `converter` field is non-nil;
`engineRunning` — `engine.start()` has succeeded. -/
structure AudioRecorder where
  engineRunning : Bool
  tapInstalled : Bool
  converterSet : Bool
deriving Repr, DecidableEq

namespace AudioRecorder

/-- Freshly initialised `AudioRecorder()`. -/
def init : AudioRecorder :=
  { engineRunning := false, tapInstalled := false, converterSet := false }

/-- Swift `AudioRecorder.start(onPcmData:) throws`: stores the callback, creates
the converter, installs the tap, then `try engine.start()`.  The converter
and tap are set before the `try`, so they remain set even when
`engine.start()` throws (`engineStartOk = false`, second component
`false`). -/
def start (engineStartOk : Bool) (_r : AudioRecorder) : AudioRecorder × Bool :=
  ({ engineRunning := engineStartOk, tapInstalled := true,
     converterSet := true }, engineStartOk)

/-- Swift `AudioRecorder.stop()`: remove the tap, stop the engine, nil out the
callback and the converter. -/
def stop (_r : AudioRecorder) : AudioRecorder :=
  { engineRunning := false, tapInstalled := false, converterSet := false }

/-- Swift `AudioRecorder.handleBuffer(buffer)`: guard that the converter is
non-nil, allocate the target buffer, run the converter; on `.error` status
or a populated error, `return` — the buffer is dropped and nothing at all
is emitted.  On success the converted bytes go to `onPcmData`. -/
def handleBuffer (r : AudioRecorder) (conv : ConvResult) : List CaptureOutput :=
  if r.converterSet then
    match conv with
    | .ok bytes => [.pcm bytes]
    | .fail => []
  else []

/-- The capture loop: the device tap fires once per buffer; each buffer is
handled independently by `handleBuffer` and the loop continues regardless
of individual outcomes (the recorder state is never modified by
`handleBuffer`). -/
def captureLoop (r : AudioRecorder) (convs : List ConvResult) : List CaptureOutput :=
  convs.flatMap (handleBuffer r)

end AudioRecorder

/-- Outbound websocket traffic of `AudioStreamClient`, in send order:
the `audio.start` control JSON (with its `projectId` / `avatarId` payload
fields; `format`/`sampleRate`/`channels` are the constants
`"pcm16"`/`16000`/`1` in the source), the `audio.stop` control JSON, and
binary PCM frames handed to `task.send(.data(...))`. -/
inductive OutMsg
  | audioStartMsg (projectId : String) (avatarId : Option String)
  | audioStopMsg
  | binary (data : ByteData)
deriving Repr, DecidableEq

/-- A decoded inbound JSON object, reduced to the fields `handleJson`
reads.  `type` is the discriminant when present as a string.  `dataField`
models `payload["data"]`: `none` — absent or not a string; `some none` — a
string that is not valid base64; `some (some bytes)` — base64 decoding to
`bytes`.  `value` models `payload["value"] as? Double` (numbers as `ℚ`).
-/
structure InPayload where
  type : Option String := none
  text : Option String := none
  dataField : Option (Option ByteData) := none
  value : Option ℚ := none
  message : Option String := none
deriving Repr, DecidableEq

/-- An inbound websocket message after the framing step of `handleMessage`:
either its payload is not decodable as a JSON object (also covering
non-UTF8 text), or it decodes to an `InPayload` (whose `type` may still be
missing). -/
inductive RawIn
  | undecodable
  | json (p : InPayload)
deriving Repr, DecidableEq

/-- One result delivered to the `task.receive` callback of the `listen`
loop: a transport failure with an error description, or a message. -/
inductive RecvResult
  | failure (desc : String)
  | message (m : RawIn)
deriving Repr, DecidableEq

/-- The real `UnityBridge.shared.updateViseme(_:)` body is a TODO stub
(`_ = value`): it accepts the value and does nothing.  The value the client
forwards to it is recorded in `ClientState.unityCalls`. -/
def UnityBridge.updateViseme (_value : ℚ) : Unit := ()

/-- Observable state of one `AudioStreamClient` instance: the `@Published`
fields, whether the websocket `task` is non-nil (`taskActive`), the owned
`recorder` and `playback` objects, and the effect traces `sent` (messages
handed to the websocket) and `unityCalls` (arguments of
`UnityBridge.shared.updateViseme` calls). -/
structure ClientState where
  status : String
  transcript : String
  assistantText : String
  isConnected : Bool
  isRecording : Bool
  visemeValue : ℚ
  taskActive : Bool
  recorder : AudioRecorder
  playback : AudioPlayback
  sent : List OutMsg
  unityCalls : List ℚ
deriving Repr, DecidableEq

namespace ClientState

/-- The client as constructed: `status = "Disconnected"`, no task, fresh
recorder and playback objects, empty traces. -/
def initial : ClientState :=
  { status := "Disconnected", transcript := "", assistantText := "",
    isConnected := false, isRecording := false, visemeValue := 0,
    taskActive := false, recorder := AudioRecorder.init,
    playback := AudioPlayback.init, sent := [], unityCalls := [] }

/-- Swift `stopRecording()`: `guard let task = task, isRecording else { return }`;
then stop the recorder, stop playback, send the `audio.stop` control
message, clear `isRecording`, set status `"Processing"`. -/
def stopRecording (s : ClientState) : ClientState :=
  if s.taskActive && s.isRecording then
    { s with
      recorder := s.recorder.stop, playback := s.playback.stop,
      sent := s.sent ++ [OutMsg.audioStopMsg],
      isRecording := false, status := "Processing" }
  else s

/-- Swift `disconnect()`: `stopRecording()`, cancel and nil the task, clear
`isConnected`, set status `"Disconnected"`. -/
def disconnect (s : ClientState) : ClientState :=
  let s1 := s.stopRecording
  { s1 with taskActive := false, isConnected := false, status := "Disconnected" }

/-- Swift `connect(url:)`: first `disconnect()`, then create and resume a new
websocket task, and immediately set `isConnected = true` and status
`"Connected"` — the source consults no handshake outcome before doing so
(`listen()` is armed afterwards; its delivered results are processed by
`processInbound`). -/
def connect (s : ClientState) : ClientState :=
  let s1 := s.disconnect
  { s1 with taskActive := true, isConnected := true, status := "Connected" }

/-- Swift `sendBinary(_:)`: `task?.send(.data(data))` — a no-op when the task is
nil; otherwise the frame is handed to the transport and, when the
completion handler reports an error (`failDesc = some d`), the status is
set to the send-failure text.  Nothing else happens on failure: no
disconnect, no capture teardown. -/
def sendBinary (s : ClientState) (data : ByteData) (failDesc : Option String) :
    ClientState :=
  if s.taskActive then
    match failDesc with
    | some d =>
      { s with sent := s.sent ++ [OutMsg.binary data],
               status := "Send failed: " ++ d }
    | none => { s with sent := s.sent ++ [OutMsg.binary data] }
  else s

/-- One firing of the capture tap installed by `recorder.start`: the tap
only fires while the tap is installed and the recorder engine runs; the
buffer goes through `handleBuffer`, and converted data reaches the
`onPcmData` closure `{ data in self.sendBinary(data) }`. -/
def captureFrame (s : ClientState) (conv : ConvResult) (failDesc : Option String) :
    ClientState :=
  if s.recorder.engineRunning && s.recorder.tapInstalled then
    match s.recorder.handleBuffer conv with
    | CaptureOutput.pcm data :: _ => s.sendBinary data failDesc
    | _ => s
  else s

/-- Swift `configureAudioSession()`: category/activation errors are caught inside
and only set the status text. -/
def configureAudioSession (s : ClientState) (sessionOk : Bool) : ClientState :=
  if sessionOk then s else { s with status := "Audio session error" }

/-- Swift `startRecording(projectId:avatarId:)`, statement by statement:
`guard let task = task else { return }`; reset `assistantText` and
`transcript`; `configureAudioSession()`; send the `audio.start` control
message; then `do { try playback.start(); try recorder.start {...};
isRecording = true; status = "Recording" } catch { status = "Audio start
failed" }` (the source appends the description of the thrown error to that
status text). -/
def startRecording (s : ClientState) (projectId : String)
    (avatarId : Option String) (sessionOk playbackOk recorderOk : Bool) :
    ClientState :=
  if s.taskActive then
    let s1 := configureAudioSession
      { s with assistantText := "", transcript := "" } sessionOk
    let s2 := { s1 with
                sent := s1.sent ++ [OutMsg.audioStartMsg projectId avatarId] }
    match s2.playback.start playbackOk with
    | (pb, false) => { s2 with playback := pb, status := "Audio start failed" }
    | (pb, true) =>
      match s2.recorder.start recorderOk with
      | (r, false) =>
        { s2 with playback := pb, recorder := r, status := "Audio start failed" }
      | (r, true) =>
        { s2 with playback := pb, recorder := r, isRecording := true,
                  status := "Recording" }
  else s

/-- Swift `handleJson(_:)`: guard that the payload decodes to a JSON object with a
string `"type"` field, else return with no effect; then dispatch on the
discriminant exactly as the switch statement of the source. -/
def handleJson (s : ClientState) (m : RawIn) : ClientState :=
  match m with
  | .undecodable => s
  | .json p =>
    match p.type with
    | none => s
    | some t =>
      match t with
      | "asr.final" =>
        { s with transcript := p.text.getD s.transcript, status := "ASR done" }
      | "assistant.delta" =>
        { s with assistantText := s.assistantText ++ p.text.getD ("") }
      | "assistant.done" => { s with status := "Reply done" }
      | "tts.start" => { s with status := "Speaking" }
      | "tts.audio" =>
        match p.dataField with
        | some (some bytes) => { s with playback := s.playback.enqueuePcm bytes }
        | _ => s
      | "viseme" =>
        match p.value with
        | some v => { s with visemeValue := v, unityCalls := s.unityCalls ++ [v] }
        | none => s
      | "tts.done" => { s with status := "Idle" }
      | "error" => { s with status := p.message.getD ("Error") }
      | _ => s

/-- The `listen()` receive loop: on success the message is handled and
`listen()` re-arms for the next result; on failure the callback sets the
`"WS error"` status, clears `isConnected`, and does **not** re-arm — the
remaining results of the schedule are never received, and nothing here
reconnects or touches the recorder, playback or task. -/
def processInbound : ClientState → List RecvResult → ClientState
  | s, [] => s
  | s, RecvResult.failure desc :: _ =>
    { s with status := "WS error: " ++ desc, isConnected := false }
  | s, RecvResult.message m :: rest => processInbound (s.handleJson m) rest

end ClientState

/-- In `ContentView` the Record button is
`.disabled(!client.isConnected || projectId.isEmpty)`, so it is enabled
only when connected with a non-empty project identifier. -/
def recordButtonEnabled (isConnected : Bool) (projectId : String) : Bool :=
  isConnected && !projectId.isEmpty

/-- Concatenation of a list of strings in order (arrival-order
concatenation of `assistant.delta` texts). -/
def concatAll : List String → String
  | [] => ""
  | t :: rest => t ++ concatAll rest

/-- An `assistant.delta` control message with the given `text` payload. -/
def assistantDelta (t : String) : RecvResult :=
  RecvResult.message (RawIn.json { type := some ("assistant.delta"), text := some t })

/-- The converted bytes of the successfully converted buffers of a capture
run, in order (rejected buffers skipped). -/
def successfulBytes : List ConvResult → List ByteData
  | [] => []
  | ConvResult.ok bs :: rest => bs :: successfulBytes rest
  | ConvResult.fail :: rest => successfulBytes rest

/-! ## Helper lemmas -/

theorem bytesToSamples_length : ∀ bs : ByteData,
    (bytesToSamples bs).length = bs.length / 2
  | [] => rfl
  | [_] => by simp [bytesToSamples]
  | _ :: _ :: rest => by
    simp only [bytesToSamples, List.length_cons, bytesToSamples_length rest]
    omega

theorem handleJson_assistantDelta (s : ClientState) (t : String) :
    s.handleJson (RawIn.json { type := some ("assistant.delta"), text := some t })
      = { s with assistantText := s.assistantText ++ t } := rfl

theorem processInbound_deltas : ∀ (texts : List String) (s : ClientState),
    (ClientState.processInbound s (texts.map assistantDelta)).assistantText
      = s.assistantText ++ concatAll texts
  | [], s => by simp [ClientState.processInbound, concatAll, String.append_empty]
  | t :: rest, s => by
    simp only [List.map_cons, assistantDelta, ClientState.processInbound,
      handleJson_assistantDelta, processInbound_deltas rest, concatAll]
    exact String.append_assoc s.assistantText t (concatAll rest)

theorem startRecording_assistantText (s : ClientState) (pid : String)
    (av : Option String) (a b c : Bool) (h : s.taskActive = true) :
    (s.startRecording pid av a b c).assistantText = "" := by
  unfold ClientState.startRecording
  rw [h]
  simp only [if_true, ClientState.configureAudioSession]
  split <;> (repeat' split) <;> rfl

theorem captureLoop_eq (r : AudioRecorder) (h : r.converterSet = true) :
    ∀ convs : List ConvResult,
      r.captureLoop convs = (successfulBytes convs).map CaptureOutput.pcm
  | [] => rfl
  | c :: rest => by
    cases c <;>
      simp [AudioRecorder.captureLoop, AudioRecorder.handleBuffer, h,
        successfulBytes, ← captureLoop_eq r h rest]

/-! ## Claim theorems -/

/-- C1 counterexample: a binary-send failure while recording
(`Connected(Streaming)`) leaves `isConnected = true` (no transition to
`Disconnected`), leaves the capture engine running (device not released),
only sets the status text, and the next capture frame still produces a
binary send — four of the claimed consequences fail at this input. -/
theorem C1_counterexample :
    (((ClientState.connect ClientState.initial).startRecording
        ("p1") none true true true).captureFrame
        (ConvResult.ok [1, 2]) (some ("timeout"))).isConnected = true ∧
    (((ClientState.connect ClientState.initial).startRecording
        ("p1") none true true true).captureFrame
        (ConvResult.ok [1, 2]) (some ("timeout"))).isRecording = true ∧
    (((ClientState.connect ClientState.initial).startRecording
        ("p1") none true true true).captureFrame
        (ConvResult.ok [1, 2]) (some ("timeout"))).recorder.engineRunning = true ∧
    (((ClientState.connect ClientState.initial).startRecording
        ("p1") none true true true).captureFrame
        (ConvResult.ok [1, 2]) (some ("timeout"))).status = "Send failed: timeout" ∧
    ((((ClientState.connect ClientState.initial).startRecording
        ("p1") none true true true).captureFrame
        (ConvResult.ok [1, 2]) (some ("timeout"))).captureFrame
        (ConvResult.ok [3, 4]) none).sent
      = [OutMsg.audioStartMsg ("p1") none, OutMsg.binary [1, 2],
         OutMsg.binary [3, 4]] := by
  refine ⟨rfl, rfl, rfl, rfl, rfl⟩

/-- C1 amended: a receive failure sets `isConnected := false` and surfaces
the single `"WS error"` status of the failed receive, stops the receive
loop (later delivery results are never processed) and nothing reconnects —
but the recorder, playback, task and traces are untouched: the capture
device is **not** released.  A send failure only appends the attempted
frame to the sent trace and sets the status text; connection state and
capture keep going. -/
theorem C1_amended (s : ClientState) (h : s.taskActive = true)
    (desc d2 : String) (rest : List RecvResult) (data : ByteData) :
    ClientState.processInbound s (RecvResult.failure desc :: rest) =
      { s with status := "WS error: " ++ desc, isConnected := false } ∧
    s.sendBinary data (some d2) =
      { s with sent := s.sent ++ [OutMsg.binary data],
               status := "Send failed: " ++ d2 } := by
  refine ⟨rfl, ?_⟩
  unfold ClientState.sendBinary
  rw [h]
  rfl

/-- Witness for C1 amended, at the post-`connect` state. -/
theorem C1_amended_witness :
    ClientState.processInbound (ClientState.connect ClientState.initial)
        [RecvResult.failure ("refused")] =
      { ClientState.connect ClientState.initial with
        status := "WS error: " ++ "refused", isConnected := false } ∧
    (ClientState.connect ClientState.initial).sendBinary [9] (some ("x")) =
      { ClientState.connect ClientState.initial with
        sent := (ClientState.connect ClientState.initial).sent ++ [OutMsg.binary [9]],
        status := "Send failed: " ++ "x" } :=
  C1_amended (ClientState.connect ClientState.initial) rfl ("refused") ("x") [] [9]

/-- C2 counterexample: receiving `viseme{value:1.4}` forwards `1.4` itself
to `UnityBridge.shared.updateViseme` and stores `1.4` in `visemeValue`;
nothing clamps to `1.0` (`7/5 ≠ 1`): the claimed clamping to `[0,1]` is
absent from the source. -/
theorem C2_counterexample :
    ((ClientState.connect ClientState.initial).handleJson
        (RawIn.json { type := some ("viseme"), value := some ((7 : ℚ)/5) })).unityCalls
      = [(7 : ℚ)/5] ∧
    ((ClientState.connect ClientState.initial).handleJson
        (RawIn.json { type := some ("viseme"), value := some ((7 : ℚ)/5) })).visemeValue
      = (7 : ℚ)/5 ∧
    (7 : ℚ)/5 ≠ 1 := by
  refine ⟨rfl, rfl, by norm_num⟩

/-- C2 amended: for every inbound `viseme` message carrying a numeric
`value`, the client forwards exactly the received value — unclamped — to
the external renderer bridge (whose `updateViseme` is a no-op stub) and
stores it in `visemeValue`; the update is total and always succeeds. -/
theorem C2_amended (s : ClientState) (v : ℚ) (p : InPayload)
    (ht : p.type = some ("viseme")) (hv : p.value = some v) :
    (s.handleJson (RawIn.json p)).unityCalls = s.unityCalls ++ [v] ∧
    (s.handleJson (RawIn.json p)).visemeValue = v ∧
    UnityBridge.updateViseme v = () := by
  obtain ⟨t, text, dataField, value, msg⟩ := p
  cases ht
  cases hv
  exact ⟨rfl, rfl, rfl⟩

/-- Witness for C2 amended: the `1.4` update from the scenario. -/
theorem C2_amended_witness :
    ((ClientState.connect ClientState.initial).handleJson
        (RawIn.json { type := some ("viseme"), value := some ((7 : ℚ)/5) })).unityCalls
      = (ClientState.connect ClientState.initial).unityCalls ++ [(7 : ℚ)/5] ∧
    ((ClientState.connect ClientState.initial).handleJson
        (RawIn.json { type := some ("viseme"), value := some ((7 : ℚ)/5) })).visemeValue
      = (7 : ℚ)/5 ∧
    UnityBridge.updateViseme ((7 : ℚ)/5) = () :=
  C2_amended (ClientState.connect ClientState.initial) ((7 : ℚ)/5)
    { type := some ("viseme"), value := some ((7 : ℚ)/5) } rfl rfl

/-- C3 counterexample: `connect` marks the session connected (status
`"Connected"`, `isConnected = true`) immediately, before any transport
outcome is known — when the transport then fails to open, the failure
surfaces as a `"WS error"` receive failure, not as a stays-`Disconnected`
`ConnectionError`; and `connect` is accepted from an already-connected
state as well (it first disconnects), not only from `Disconnected`. -/
theorem C3_counterexample :
    (ClientState.connect ClientState.initial).isConnected = true ∧
    (ClientState.connect ClientState.initial).status = "Connected" ∧
    (ClientState.processInbound (ClientState.connect ClientState.initial)
        [RecvResult.failure ("refused")]).status = "WS error: refused" ∧
    (ClientState.connect
        (ClientState.connect ClientState.initial)).isConnected = true := by
  refine ⟨rfl, rfl, rfl, rfl⟩

/-- C3 amended: `connect` is valid from any state (it performs a
`disconnect` first) and unconditionally moves to the connected state —
`isConnected = true`, status `"Connected"`, a live task — before the
transport handshake outcome is known; a transport that fails to open
surfaces afterwards as a receive failure (`"WS error"` status with
`isConnected = false`), never as a `ConnectionError` at `connect` time. -/
theorem C3_amended (s : ClientState) (desc : String) :
    (s.connect).isConnected = true ∧
    (s.connect).status = "Connected" ∧
    (s.connect).taskActive = true ∧
    (ClientState.processInbound s.connect
        [RecvResult.failure desc]).isConnected = false ∧
    (ClientState.processInbound s.connect
        [RecvResult.failure desc]).status = "WS error: " ++ desc := by
  exact ⟨rfl, rfl, rfl, rfl, rfl⟩

/-- C4 counterexample: after `stop()`, `enqueuePcm` is not a no-op — the
buffer `[1, 2]` (sample `513`) is scheduled on the player queue — and the
audio is rendered as soon as playback starts again: the claimed property
that no audio from such a buffer is ever rendered fails. -/
theorem C4_counterexample :
    ((AudioPlayback.init.start true).1.stop.enqueuePcm [1, 2]
        ≠ (AudioPlayback.init.start true).1.stop) ∧
    ((AudioPlayback.init.start true).1.stop.enqueuePcm [1, 2]).queued
      = [[513]] ∧
    ((((AudioPlayback.init.start true).1.stop.enqueuePcm [1, 2]).start
        true).1).rendered = [[513]] := by
  refine ⟨by decide, rfl, rfl⟩

/-- C4 amended: an `enqueuePcm` call after `stop()` does not crash (the
operation is total) and renders nothing while stopped, but it is not a
no-op: the buffer is scheduled on the player queue rather than
discarded, and a subsequent `start` renders it. -/
theorem C4_amended (p : AudioPlayback) (data : ByteData) :
    (p.stop.enqueuePcm data).playing = false ∧
    (p.stop.enqueuePcm data).rendered = p.rendered ∧
    (p.stop.enqueuePcm data).queued = [bytesToSamples data] ∧
    ((p.stop.enqueuePcm data).start true).1.rendered
      = p.rendered ++ [bytesToSamples data] := by
  refine ⟨rfl, rfl, rfl, rfl⟩

/-- C5 counterexample: on a connected session, `startRecording` with the
empty project identifier is accepted: it sends the `audio.start` control
message carrying `projectId = ""` and moves to the recording state — the
session-protocol operation itself does not require a non-empty project
identifier (and, the `task` guard being the only check, it is not
restricted to `Connected(Idle)` either). -/
theorem C5_counterexample :
    ((ClientState.connect ClientState.initial).startRecording
        ("") none true true true).isRecording = true ∧
    ((ClientState.connect ClientState.initial).startRecording
        ("") none true true true).status = "Recording" ∧
    ((ClientState.connect ClientState.initial).startRecording
        ("") none true true true).sent = [OutMsg.audioStartMsg ("") none] := by
  refine ⟨rfl, rfl, rfl⟩

/-- C5 amended: `startRecording` while `Disconnected` (no websocket task)
is a guard-protected no-op — the state is returned unchanged, so no
control message, no device acquisition, no observable field change — for
every project identifier; the non-empty project identifier requirement is
enforced only by the UI layer, whose Record button is disabled whenever
the client is not connected or the identifier is empty. -/
theorem C5_amended (s : ClientState) (h : s.taskActive = false)
    (pid : String) (av : Option String) (a b c : Bool) :
    s.startRecording pid av a b c = s ∧
    recordButtonEnabled false pid = false ∧
    recordButtonEnabled s.isConnected ("") = false := by
  refine ⟨?_, rfl, ?_⟩
  · unfold ClientState.startRecording
    rw [h]
    rfl
  · unfold recordButtonEnabled
    simp [String.isEmpty]

/-- Witness for C5 amended: the freshly constructed client. -/
theorem C5_amended_witness :
    ClientState.initial.startRecording ("p1") none true true true
        = ClientState.initial ∧
    recordButtonEnabled false ("p1") = false ∧
    recordButtonEnabled ClientState.initial.isConnected ("") = false :=
  C5_amended ClientState.initial rfl ("p1") none true true true

/-- C6 counterexample: a capture run in which the converter rejects the
first buffer and converts the second produces exactly one upward output —
the PCM of the second buffer — and no `FormatError` report of any kind: the
rejected buffer is dropped silently, nothing is reported upward. -/
theorem C6_counterexample :
    (AudioRecorder.init.start true).1.captureLoop
        [ConvResult.fail, ConvResult.ok [5, 6]]
      = [CaptureOutput.pcm [5, 6]] := rfl

/-- C6 amended: when the native converter rejects a capture buffer, the
failure does not crash the capture loop (`handleBuffer` is total and
emits nothing), the buffer is dropped, and capture continues for
subsequent buffers — but the failure is swallowed silently: the upward
output of any capture run is exactly the converted PCM of the successful
buffers, so no `FormatError` (or error report of any kind) is ever passed
upward; the only upward channel of the recorder is the `onPcmData` callback. -/
theorem C6_amended (r : AudioRecorder) (h : r.converterSet = true)
    (convs : List ConvResult) :
    r.handleBuffer ConvResult.fail = [] ∧
    r.captureLoop (ConvResult.fail :: convs) = r.captureLoop convs ∧
    r.captureLoop convs = (successfulBytes convs).map CaptureOutput.pcm := by
  refine ⟨?_, ?_, captureLoop_eq r h convs⟩
  · unfold AudioRecorder.handleBuffer
    rw [h]
    rfl
  · rw [captureLoop_eq r h, captureLoop_eq r h, successfulBytes]

/-- Witness for C6 amended: a started recorder, one rejected then one
converted buffer. -/
theorem C6_amended_witness :
    (AudioRecorder.init.start true).1.handleBuffer ConvResult.fail = [] ∧
    (AudioRecorder.init.start true).1.captureLoop
        [ConvResult.fail, ConvResult.ok [5, 6]]
      = (AudioRecorder.init.start true).1.captureLoop [ConvResult.ok [5, 6]] ∧
    (AudioRecorder.init.start true).1.captureLoop
        [ConvResult.fail, ConvResult.ok [5, 6]]
      = (successfulBytes [ConvResult.fail, ConvResult.ok [5, 6]]).map
          CaptureOutput.pcm :=
  C6_amended (AudioRecorder.init.start true).1 rfl
    [ConvResult.fail, ConvResult.ok [5, 6]]

/-- C7 counterexample: from a state in which `playback.start()` succeeded
but `recorder.start()` threw (`isRecording` never became `true`),
`disconnect()` reaches the terminal `Disconnected` state but leaves the
playback engine started and running: it does not stop all active playback
nor release all acquired resources. -/
theorem C7_counterexample :
    ((ClientState.connect ClientState.initial).startRecording
        ("p1") none true true false).isRecording = false ∧
    ((ClientState.connect ClientState.initial).startRecording
        ("p1") none true true false).playback.started = true ∧
    (((ClientState.connect ClientState.initial).startRecording
        ("p1") none true true false).disconnect).status = "Disconnected" ∧
    (((ClientState.connect ClientState.initial).startRecording
        ("p1") none true true false).disconnect).playback.started = true ∧
    (((ClientState.connect ClientState.initial).startRecording
        ("p1") none true true false).disconnect).playback.engineRunning
      = true := by
  refine ⟨rfl, rfl, rfl, rfl, rfl⟩

/-- C7 amended: `disconnect` is valid from any state and idempotent —
calling it twice in a row gives exactly the state of calling it once, the
terminal `Disconnected` state with no error — and when a recording is
active (task live and `isRecording`) it stops the capture device, stops
playback and closes the transport; however the release of all resources
holds only then: a playback engine acquired during a partially failed
`startRecording` is not stopped (see the counterexample). -/
theorem C7_amended (s : ClientState) :
    (s.disconnect.disconnect = s.disconnect ∧
     s.disconnect.isConnected = false ∧
     s.disconnect.status = "Disconnected" ∧
     s.disconnect.taskActive = false) ∧
    (s.taskActive = true → s.isRecording = true →
     s.disconnect.isRecording = false ∧
     s.disconnect.recorder.engineRunning = false ∧
     s.disconnect.recorder.tapInstalled = false ∧
     s.disconnect.recorder.converterSet = false ∧
     s.disconnect.playback.playing = false ∧
     s.disconnect.playback.engineRunning = false ∧
     s.disconnect.playback.started = false) := by
  constructor
  · unfold ClientState.disconnect ClientState.stopRecording
    refine ⟨?_, rfl, rfl, rfl⟩
    simp
  · intro h1 h2
    unfold ClientState.disconnect ClientState.stopRecording
    rw [h1, h2]
    exact ⟨rfl, rfl, rfl, rfl, rfl, rfl, rfl⟩

/-- Witness for C7 amended: a connected, recording client. -/
theorem C7_amended_witness :
    ((((ClientState.connect ClientState.initial).startRecording
          ("p1") none true true true).disconnect.disconnect
        = ((ClientState.connect ClientState.initial).startRecording
          ("p1") none true true true).disconnect) ∧
     (((ClientState.connect ClientState.initial).startRecording
          ("p1") none true true true).disconnect).isConnected = false ∧
     (((ClientState.connect ClientState.initial).startRecording
          ("p1") none true true true).disconnect).status = "Disconnected" ∧
     (((ClientState.connect ClientState.initial).startRecording
          ("p1") none true true true).disconnect).taskActive = false) ∧
    ((((ClientState.connect ClientState.initial).startRecording
          ("p1") none true true true).disconnect).isRecording = false ∧
     (((ClientState.connect ClientState.initial).startRecording
          ("p1") none true true true).disconnect).recorder.engineRunning = false ∧
     (((ClientState.connect ClientState.initial).startRecording
          ("p1") none true true true).disconnect).recorder.tapInstalled = false ∧
     (((ClientState.connect ClientState.initial).startRecording
          ("p1") none true true true).disconnect).recorder.converterSet = false ∧
     (((ClientState.connect ClientState.initial).startRecording
          ("p1") none true true true).disconnect).playback.playing = false ∧
     (((ClientState.connect ClientState.initial).startRecording
          ("p1") none true true true).disconnect).playback.engineRunning = false ∧
     (((ClientState.connect ClientState.initial).startRecording
          ("p1") none true true true).disconnect).playback.started = false) :=
  ⟨(C7_amended ((ClientState.connect ClientState.initial).startRecording
      ("p1") none true true true)).1,
   (C7_amended ((ClientState.connect ClientState.initial).startRecording
      ("p1") none true true true)).2 rfl rfl⟩

/-- C8 counterexample: handling an undecodable inbound payload returns a
state equal to the input state in every component — including the effect
traces, which record everything the client ever surfaces — so the drop is
completely silent: no warning is logged anywhere (the guard in the source
is a bare `return`, and the client contains no logging call),
contradicting the claimed logged warning. -/
theorem C8_counterexample :
    ClientState.handleJson (ClientState.connect ClientState.initial)
        RawIn.undecodable
      = ClientState.connect ClientState.initial ∧
    ClientState.handleJson (ClientState.connect ClientState.initial)
        (RawIn.json { text := some ("no discriminant here") })
      = ClientState.connect ClientState.initial := by
  refine ⟨rfl, rfl⟩

/-- C8 amended: every malformed inbound message — an undecodable payload,
or a decoded JSON object lacking the string `type` discriminant — is
dropped with no state change whatsoever (all protocol state and every
observable field, including the outbound and renderer traces, are left
unchanged); the drop is silent, with no logged warning. -/
theorem C8_amended (s : ClientState) (p : InPayload) (h : p.type = none) :
    s.handleJson RawIn.undecodable = s ∧
    s.handleJson (RawIn.json p) = s := by
  obtain ⟨t, text, dataField, value, msg⟩ := p
  cases h
  exact ⟨rfl, rfl⟩

/-- Witness for C8 amended: a payload with fields but no `type`. -/
theorem C8_amended_witness :
    ClientState.handleJson (ClientState.connect ClientState.initial)
        RawIn.undecodable
      = ClientState.connect ClientState.initial ∧
    ClientState.handleJson (ClientState.connect ClientState.initial)
        (RawIn.json { text := some ("x"), value := some 2 })
      = ClientState.connect ClientState.initial :=
  C8_amended (ClientState.connect ClientState.initial)
    { text := some ("x"), value := some 2 } rfl

/-- C9: for every sequence of inbound `assistant.delta` messages received
after a `startStreaming` (`startRecording`, which resets `assistantText` to
`""`), the accumulated assistant text equals the concatenation, in arrival
order, of the `text` fields of those messages — append-only, no delta
dropped, reordered or overwriting earlier text. -/
theorem C9_assistant_delta_accumulation (s : ClientState)
    (h : s.taskActive = true) (pid : String) (av : Option String)
    (sessionOk playbackOk recorderOk : Bool) (texts : List String) :
    ((s.startRecording pid av sessionOk playbackOk recorderOk).processInbound
        (texts.map assistantDelta)).assistantText = concatAll texts := by
  rw [processInbound_deltas,
    startRecording_assistantText s pid av sessionOk playbackOk recorderOk h,
    String.empty_append]

/-- Witness for C9: after connecting and starting a recording, the deltas
`"Hel"`, `"lo"` accumulate to `"Hello"`. -/
theorem C9_assistant_delta_accumulation_witness :
    (((ClientState.connect ClientState.initial).startRecording
        ("p1") none true true true).processInbound
        ((["Hel", "lo"].map assistantDelta))).assistantText = "Hello" :=
  C9_assistant_delta_accumulation (ClientState.connect ClientState.initial)
    rfl ("p1") none true true true ["Hel", "lo"]

/-- C10: every byte buffer enqueued on the started playback pipeline
schedules exactly `⌊byteCount / 2⌋` PCM16 samples: a trailing odd byte is
silently discarded (the operation is total — no error path), and an empty
buffer schedules zero samples. -/
theorem C10_enqueue_sample_count (p : AudioPlayback) (_h : p.started = true)
    (data : ByteData) :
    (p.enqueuePcm data).totalSamples = p.totalSamples + data.length / 2 ∧
    (p.enqueuePcm []).totalSamples = p.totalSamples := by
  constructor
  · unfold AudioPlayback.enqueuePcm AudioPlayback.scheduleBuffer
      AudioPlayback.totalSamples
    split <;>
      simp [List.map_append, List.sum_append, bytesToSamples_length,
        Nat.add_comm, Nat.add_assoc, Nat.add_left_comm]
  · unfold AudioPlayback.enqueuePcm AudioPlayback.scheduleBuffer
      AudioPlayback.totalSamples
    split <;> simp [List.map_append, List.sum_append, bytesToSamples]

/-- Witness for C10: on a started pipeline, a 3-byte buffer schedules one
sample (trailing byte discarded). -/
theorem C10_enqueue_sample_count_witness :
    (((AudioPlayback.init.start true).1.enqueuePcm [1, 2, 3]).totalSamples
        = (AudioPlayback.init.start true).1.totalSamples + 1) ∧
    (((AudioPlayback.init.start true).1.enqueuePcm []).totalSamples
        = (AudioPlayback.init.start true).1.totalSamples) :=
  C10_enqueue_sample_count (AudioPlayback.init.start true).1 rfl [1, 2, 3]

end OpenClaw
